import Mathlib

/-
Verification of the finanflow-freemium loan-tracking core.

Shallow embedding of src/main.py (routes working on the SQLAlchemy models of
src/app/models.py).  Monetary values are modelled as rationals; dates are
modelled as integer day numbers (for the accrual calculator) or natural day
numbers with the convention day 0 is a Monday, so a day d is a Sunday exactly
when d % 7 = 6 -- matching Python's date.weekday() == 6 test used throughout
main.py.
-/

/-- Lifecycle status used by both Loan (cobranca) and Installment (parcela):
`status` column values 'Pendente' and 'Pago'. -/
inductive Status where
  | Pendente
  | Pago
deriving DecidableEq

/-- Round a rational to 2 decimal places, as Python's round(x, 2).
(Python rounds half to even on binary floats; on the tie-free values that
appear in the claims the two conventions agree, and the refinement statements
use the same rounding on both sides.) -/
def round2 (q : ℚ) : ℚ := ((round (q * 100) : ℤ) : ℚ) / 100

/-- Result dictionary of calcular_valor_atualizado (main.py lines 132-179):
keys multa, juros, valor_total, dias_atraso. -/
structure AccrualResult where
  multa : ℚ
  juros : ℚ
  valor_total : ℚ
  dias_atraso : ℤ
deriving DecidableEq

/-- calcular_valor_atualizado (main.py lines 132-179).  Inputs: the charge's
status, optional due date (day number), today, valor_original and desconto,
and the configuration values dias_tolerancia (int), taxa_multa and
taxa_juros_mensal.  The configuration lookup itself is modelled separately
(getConfigValor); here the looked-up values are parameters. -/
def calcular_valor_atualizado (status : Status) (data_vencimento : Option ℤ)
    (hoje : ℤ) (valor_original desconto : ℚ) (dias_tolerancia : ℤ)
    (taxa_multa taxa_juros_mensal : ℚ) : AccrualResult :=
  match data_vencimento with
  | none => ⟨0, 0, valor_original - desconto, 0⟩
  | some data_venc =>
    if status = Status.Pago then ⟨0, 0, valor_original - desconto, 0⟩
    else if hoje > data_venc then
      let dias_atraso : ℤ := hoje - data_venc
      if dias_atraso > dias_tolerancia then
        let multa : ℚ := valor_original * (taxa_multa / 100)
        let meses_atraso : ℚ := (dias_atraso : ℚ) / 30
        let juros : ℚ := valor_original * (taxa_juros_mensal / 100) * meses_atraso
        ⟨round2 multa, round2 juros,
          round2 (valor_original + multa + juros - desconto), dias_atraso⟩
      else ⟨0, 0, valor_original - desconto, 0⟩
    else ⟨0, 0, valor_original - desconto, 0⟩

/-- The Sunday-skip loop of schedule generation (main.py lines 815-817 and
1131-1132): `while data.weekday() == 6: data += 1 day`.  The day after a
Sunday is a Monday, so the loop body runs at most once and a single
conditional step is an exact embedding of the while-loop. -/
def pularDomingos (d : Nat) : Nat := if d % 7 = 6 then d + 1 else d

/-- Installment row (table parcelas, app/models.py lines 248-276).  The
primary key id is database-assigned; generated rows carry id 0 (the claims
about generation do not mention ids).  client_id is the tenant column, left
unset (none) by the creation code in main.py ("O 'client_id' sera adicionado
depois"). -/
structure Installment where
  id : Nat
  numero_parcela : Nat
  valor : ℚ
  data_vencimento : Nat
  status : Status
  valor_pago : ℚ
  data_pagamento : Option Nat
  forma_pagamento : Option String
  multa_manual : Option ℚ
  client_id : Option Nat
deriving DecidableEq

/-- Loan row (table cobrancas, app/models.py lines 102-142), restricted to the
columns the verified routes read or write. -/
structure Loan where
  id : Nat
  cliente_id : Nat
  client_id : Option Nat
  descricao : String
  valor_original : ℚ
  valor_pago : ℚ
  desconto : ℚ
  valor_total : ℚ
  taxa_juros : ℚ
  data_vencimento : Nat
  data_pagamento : Option Nat
  status : Status
  numero_parcelas : Nat
deriving DecidableEq

/-- The installment-generation loop of adicionar_cobranca (main.py lines
812-832): for i in range(numero_parcelas), skip Sundays, create the
installment at the (skipped-forward) date, then advance one day from the
assigned date.  Arguments: per-installment value, remaining count, loop index
i, current candidate date. -/
def gerarParcelas (valor_parcela : ℚ) : Nat → Nat → Nat → List Installment
  | 0, _, _ => []
  | Nat.succ n, i, data_atual =>
    let d := pularDomingos data_atual
    { id := 0, numero_parcela := i + 1, valor := valor_parcela,
      data_vencimento := d, status := Status.Pendente, valor_pago := 0,
      data_pagamento := none, forma_pagamento := none,
      multa_manual := none, client_id := none } ::
      gerarParcelas valor_parcela n (i + 1) (d + 1)

/-- Validation failures of the schedule creation/edit routes. -/
inductive CobrancaErro where
  | dataDomingo
  | taxaInvalida
  | valorInvalido
deriving DecidableEq

/-- adicionar_cobranca, POST branch (main.py lines 764-847).  Validates that
the first due date is not a Sunday, maps the rate tier to the installment
count (30 -> 10, 60 -> 15, otherwise a validation error), computes
valor_total and valor_parcela, and builds the Loan with its generated
Installments.  Errors are flashed before any record is created; here they are
the error branch of Except. -/
def adicionar_cobranca (cliente_id : Nat) (descricao : String)
    (valor_emprestimo taxa_juros : ℚ) (data_primeira_parcela : Nat) :
    Except CobrancaErro (Loan × List Installment) :=
  if data_primeira_parcela % 7 = 6 then Except.error CobrancaErro.dataDomingo
  else
    match (if taxa_juros = 30 then some 10
           else if taxa_juros = 60 then some 15 else none : Option Nat) with
    | none => Except.error CobrancaErro.taxaInvalida
    | some numero_parcelas =>
      let valor_devido_total : ℚ := valor_emprestimo * (1 + taxa_juros / 100)
      let valor_parcela : ℚ := valor_devido_total / numero_parcelas
      Except.ok
        ({ id := 0, cliente_id := cliente_id, client_id := none,
           descricao := descricao, valor_original := valor_emprestimo,
           valor_pago := 0, desconto := 0, valor_total := valor_devido_total,
           taxa_juros := taxa_juros, data_vencimento := data_primeira_parcela,
           data_pagamento := none, status := Status.Pendente,
           numero_parcelas := numero_parcelas },
         gerarParcelas valor_parcela numero_parcelas 0 data_primeira_parcela)

/-- Python's `parcela.multa_manual or 0` / SQL `coalesce(multa_manual, 0)` as
used by every balance read path in main.py: a missing manual penalty counts
as zero. -/
def multaOr0 (p : Installment) : ℚ := p.multa_manual.getD 0

/-- Modelled from the spec: the derived balance rule of spec section 4.4,
written from the spec's own words for the refinement comparison -- the sum
over a loan's Pending installments of (amount + max(manual_penalty, 0)). -/
def specOutstanding (parcelas : List Installment) : ℚ :=
  ((parcelas.filter (fun p => p.status == Status.Pendente)).map
    (fun p => p.valor + max (p.multa_manual.getD 0) 0)).sum

/-- Dashboard total outstanding balance (index, main.py lines 249-260): sum of
valor + (multa_manual or 0) over the Pending installments of Pending loans. -/
def saldo_devedor_total_index (db : List (Loan × List Installment)) : ℚ :=
  (db.map (fun cob =>
    if cob.1.status == Status.Pendente then
      ((cob.2.filter (fun p => p.status == Status.Pendente)).map
        (fun p => p.valor + multaOr0 p)).sum
    else 0)).sum

/-- Per-loan balance of the dashboard's recent-charges listing (index, main.py
lines 316-319): sum of valor + (multa_manual or 0) over the loan's Pending
installments. -/
def saldo_cob_index (cob : Loan × List Installment) : ℚ :=
  ((cob.2.filter (fun p => p.status == Status.Pendente)).map
    (fun p => p.valor + multaOr0 p)).sum

/-- Per-customer balance of the customer listing (listar_clientes, main.py
lines 383-392): over the customer's Pending loans, sum of valor +
(multa_manual or 0) over Pending installments. -/
def saldo_devedor_cliente (loans : List (Loan × List Installment)) : ℚ :=
  ((loans.filter (fun c => c.1.status == Status.Pendente)).map
    (fun c => ((c.2.filter (fun p => p.status == Status.Pendente)).map
      (fun p => p.valor + multaOr0 p)).sum)).sum

/-- Per-loan balance of the customer-detail view (visualizar_cliente, main.py
lines 577-608): the sum over Pending installments of valor + multa_manual,
minus the loan's aggregate valor_pago (line 603). -/
def saldo_devedor_calculado (cob : Loan × List Installment) : ℚ :=
  ((cob.2.filter (fun p => p.status == Status.Pendente)).map
    (fun p => p.valor + multaOr0 p)).sum - cob.1.valor_pago

/-- Reporting-KPI total outstanding balance (api_relatorios_kpis, main.py
lines 1356-1363): SQL sum of Installment.valor + coalesce(multa_manual, 0)
joined to Loan, filtered on both statuses being Pendente. -/
def saldo_devedor_total_kpis (db : List (Loan × List Installment)) : ℚ :=
  (db.map (fun cob =>
    ((cob.2.filter (fun p =>
        cob.1.status == Status.Pendente && p.status == Status.Pendente)).map
      (fun p => p.valor + multaOr0 p)).sum)).sum

/-- Customer row (table clientes, app/models.py lines 59-99) restricted to the
columns the tenant-isolation claim touches: client_id is the tenant column. -/
structure CustomerRow where
  id : Nat
  nome : String
  empresa : String
  client_id : Nat
deriving DecidableEq

/-- Configuration row (table configuracoes, app/models.py lines 279-298):
chave/valor pair plus the tenant column client_id. -/
structure ConfigRow where
  chave : String
  valor : ℚ
  client_id : Nat
deriving DecidableEq

/-- Customer.query.count() as run by the dashboard and the reporting KPIs
(main.py lines 232 and 1346): counts every row of clientes, with no tenant
filter. -/
def total_clientes (customers : List CustomerRow) : Nat := customers.length

/-- The configuration lookup used by calcular_valor_atualizado (main.py lines
147-155): SELECT chave, valor FROM configuracoes with no tenant filter, a
dict comprehension keyed on chave (a later row overwrites an earlier one with
the same key), then .get(chave, default). -/
def configLookup (rows : List ConfigRow) (chave : String) (default : ℚ) : ℚ :=
  match (rows.filter (fun r => r.chave == chave)).getLast? with
  | some r => r.valor
  | none => default

/-- The rows of a table that belong to tenant t (the filter the spec requires
every query to apply). -/
def tenantCustomers (customers : List CustomerRow) (t : Nat) : List CustomerRow :=
  customers.filter (fun c => c.client_id == t)

/-- The configuration rows of tenant t. -/
def tenantConfig (rows : List ConfigRow) (t : Nat) : List ConfigRow :=
  rows.filter (fun r => r.client_id == t)

/-- Payment row (table pagamentos, app/models.py lines 167-191) restricted to
the columns registrar_pagamento writes; client_id is the tenant column. -/
structure Payment where
  cobranca_id : Nat
  valor_pago : ℚ
  observacao : String
  forma_pagamento : String
  usuario_id : Option Nat
  client_id : Nat
deriving DecidableEq

/-- PaymentHistory row (table historico_pagamentos, app/models.py lines
194-219) restricted to the columns the payment routes write; client_id is the
tenant column, cliente_id the borrowing customer. -/
structure PaymentHistory where
  cobranca_id : Nat
  cliente_id : Nat
  valor_pago : ℚ
  forma_pagamento : String
  observacoes : String
  usuario_id : Option Nat
  client_id : Nat
deriving DecidableEq

/-- The rows a ledger operation can touch: one Loan, its Installments, its
Payments and the PaymentHistory rows (the routes below mutate nothing
outside this set). -/
structure LoanState where
  loan : Loan
  parcelas : List Installment
  pagamentos : List Payment
  historico : List PaymentHistory
deriving DecidableEq

/-- Outcome flashed by the ledger routes. -/
inductive OpResultado where
  | ok
  | valorInvalido
  | jaPaga
  | naoEncontrada
  | dataDomingo
deriving DecidableEq

/-- registrar_pagamento (main.py lines 874-930): requires a positive amount,
then creates one Payment row and one PaymentHistory row (both with client_id
set to cobranca.cliente_id) and increments the loan's valor_pago; it touches
no installment and no status. -/
def registrar_pagamento (s : LoanState) (valor_a_pagar : ℚ)
    (observacao_pagamento : String) (usuario_id : Option Nat) :
    LoanState × OpResultado :=
  if valor_a_pagar ≤ 0 then (s, OpResultado.valorInvalido)
  else
    let cobranca := s.loan
    let novo_pagamento : Payment :=
      { cobranca_id := cobranca.id, valor_pago := valor_a_pagar,
        observacao := observacao_pagamento, forma_pagamento := "Dinheiro",
        usuario_id := usuario_id, client_id := cobranca.cliente_id }
    let novo_historico : PaymentHistory :=
      { cobranca_id := cobranca.id, cliente_id := cobranca.cliente_id,
        valor_pago := valor_a_pagar, forma_pagamento := "Dinheiro",
        observacoes := observacao_pagamento, usuario_id := usuario_id,
        client_id := cobranca.cliente_id }
    ({ s with
        loan := { cobranca with valor_pago := cobranca.valor_pago + valor_a_pagar },
        pagamentos := s.pagamentos ++ [novo_pagamento],
        historico := s.historico ++ [novo_historico] },
      OpResultado.ok)

/-- marcar_parcela_paga (main.py lines 948-1002): a parcela already Pago only
flashes a notice (no mutation); otherwise the parcela is settled (status
Pago, valor_pago := valor, data_pagamento := today, forma_pagamento
Dinheiro), the loan's valor_pago grows by the parcela's valor, one
PaymentHistory row naming the parcela's numero_parcela is appended, and the
loan closes (status Pago, data_pagamento today) exactly if the new valor_pago
reaches valor_total. -/
def marcar_parcela_paga (s : LoanState) (pid : Nat) (hoje : Nat)
    (usuario_id : Option Nat) : LoanState × OpResultado :=
  match s.parcelas.find? (fun p => p.id == pid) with
  | none => (s, OpResultado.naoEncontrada)
  | some parcela =>
    if parcela.status = Status.Pago then (s, OpResultado.jaPaga)
    else
      let cobranca := s.loan
      let novo_valor_pago := cobranca.valor_pago + parcela.valor
      let parcelas' := s.parcelas.map (fun p =>
        if p.id == pid then
          { p with
            status := Status.Pago, valor_pago := p.valor,
            forma_pagamento := some "Dinheiro", data_pagamento := some hoje }
        else p)
      let novo_historico : PaymentHistory :=
        { cobranca_id := cobranca.id, cliente_id := cobranca.cliente_id,
          valor_pago := parcela.valor, forma_pagamento := "Dinheiro",
          observacoes := "Pagamento da parcela " ++ toString parcela.numero_parcela,
          usuario_id := usuario_id, client_id := cobranca.cliente_id }
      let loan' :=
        if cobranca.valor_total ≤ novo_valor_pago then
          { cobranca with
            valor_pago := novo_valor_pago,
            status := Status.Pago, data_pagamento := some hoje }
        else { cobranca with valor_pago := novo_valor_pago }
      ({ loan := loan', parcelas := parcelas', pagamentos := s.pagamentos,
         historico := s.historico ++ [novo_historico] }, OpResultado.ok)

/-- editar_data_parcela (main.py lines 1038-1071): rejects a Sunday, otherwise
sets the parcela's data_vencimento to the new date.  The parcela's status is
never consulted. -/
def editar_data_parcela (s : LoanState) (pid : Nat) (nova_data : Nat) :
    LoanState × OpResultado :=
  match s.parcelas.find? (fun p => p.id == pid) with
  | none => (s, OpResultado.naoEncontrada)
  | some _ =>
    if nova_data % 7 = 6 then (s, OpResultado.dataDomingo)
    else
      ({ s with parcelas := s.parcelas.map (fun p =>
          if p.id == pid then { p with data_vencimento := nova_data } else p) },
        OpResultado.ok)

/-- editar_cobranca, POST branch (main.py lines 1073-1165): validates the new
principal and due date, takes the rate tier from the form (falling back to
the stored one), maps 30 -> 10 and 60 -> 15 but otherwise FALLS BACK to the
form-provided installment count, discards the whole installment set and this
loan's PaymentHistory rows, regenerates the schedule, and resets valor_pago
to 0 and status to Pendente. -/
def editar_cobranca (s : LoanState) (novo_valor_emprestimo : ℚ)
    (nova_data_vencimento : Nat) (taxa_juros_form : Option ℚ)
    (numero_parcelas_form : Option Nat) : LoanState × OpResultado :=
  if novo_valor_emprestimo ≤ 0 then (s, OpResultado.valorInvalido)
  else if nova_data_vencimento % 7 = 6 then (s, OpResultado.dataDomingo)
  else
    let taxa_juros := taxa_juros_form.getD s.loan.taxa_juros
    let numero_parcelas :=
      if taxa_juros = 30 then 10
      else if taxa_juros = 60 then 15
      else numero_parcelas_form.getD s.loan.numero_parcelas
    let valor_total := novo_valor_emprestimo * (1 + taxa_juros / 100)
    let valor_parcela := valor_total / numero_parcelas
    ({ loan := { s.loan with
          valor_original := novo_valor_emprestimo, valor_total := valor_total,
          taxa_juros := taxa_juros, data_vencimento := nova_data_vencimento,
          numero_parcelas := numero_parcelas, valor_pago := 0,
          status := Status.Pendente },
       parcelas := gerarParcelas valor_parcela numero_parcelas 0 nova_data_vencimento,
       pagamentos := s.pagamentos,
       historico := s.historico.filter (fun h => !(h.cobranca_id == s.loan.id)) },
      OpResultado.ok)

/-- Concrete loan for the C1 balance-path comparison: a Pending loan with a
recorded generic payment (valor_pago 50) and one Pending installment of 100. -/
def exLoanC1 : Loan :=
  { id := 1, cliente_id := 7, client_id := none, descricao := "emprestimo",
    valor_original := 100, valor_pago := 50, desconto := 0, valor_total := 130,
    taxa_juros := 30, data_vencimento := 1, data_pagamento := none,
    status := Status.Pendente, numero_parcelas := 1 }

/-- The single Pending installment of exLoanC1. -/
def exParcelaC1 : Installment :=
  { id := 1, numero_parcela := 1, valor := 100, data_vencimento := 1,
    status := Status.Pendente, valor_pago := 0, data_pagamento := none,
    forma_pagamento := none, multa_manual := none, client_id := none }

/-- exLoanC1 together with its installments. -/
def exCobC1 : Loan × List Installment := (exLoanC1, [exParcelaC1])

/-- One-loan portfolio used to instantiate the C1 read-path theorem. -/
def exDbC1 : List (Loan × List Installment) := [exCobC1]

/-- Concrete loan for C2: total due 100, nothing paid yet, Pending. -/
def exLoanC2 : Loan :=
  { id := 2, cliente_id := 3, client_id := none, descricao := "teste",
    valor_original := 100, valor_pago := 0, desconto := 0, valor_total := 100,
    taxa_juros := 0, data_vencimento := 2, data_pagamento := none,
    status := Status.Pendente, numero_parcelas := 1 }

/-- A Pending installment of exLoanC2 (valor 40). -/
def exParcelaC2 : Installment :=
  { id := 21, numero_parcela := 1, valor := 40, data_vencimento := 2,
    status := Status.Pendente, valor_pago := 0, data_pagamento := none,
    forma_pagamento := none, multa_manual := none, client_id := none }

/-- Ledger state around exLoanC2. -/
def exStateC2 : LoanState :=
  { loan := exLoanC2, parcelas := [exParcelaC2], pagamentos := [],
    historico := [] }

/-- Two tenants' customer rows: tenant 1 owns one customer, tenant 2 owns
another. -/
def exClientesC3 : List CustomerRow :=
  [ { id := 1, nome := "Ana", empresa := "FH1", client_id := 1 },
    { id := 2, nome := "Bruno", empresa := "FH1", client_id := 2 } ]

/-- Two tenants' configuration rows for the same key dias_tolerancia. -/
def exConfigC3 : List ConfigRow :=
  [ { chave := "dias_tolerancia", valor := 3, client_id := 1 },
    { chave := "dias_tolerancia", valor := 10, client_id := 2 } ]

/-- Concrete loan for the C4 edit-path counterexample (tier 30, 10
installments before the edit). -/
def exLoanC4 : Loan :=
  { id := 4, cliente_id := 4, client_id := none, descricao := "edit",
    valor_original := 100, valor_pago := 0, desconto := 0, valor_total := 130,
    taxa_juros := 30, data_vencimento := 1, data_pagamento := none,
    status := Status.Pendente, numero_parcelas := 10 }

/-- Ledger state around exLoanC4. -/
def exStateC4 : LoanState :=
  { loan := exLoanC4, parcelas := [], pagamentos := [], historico := [] }

/-- Concrete loan for C6: total due 130, so settling the 50-installment does
not close it. -/
def exLoanC6 : Loan :=
  { id := 6, cliente_id := 5, client_id := none, descricao := "c6",
    valor_original := 100, valor_pago := 0, desconto := 0, valor_total := 130,
    taxa_juros := 30, data_vencimento := 3, data_pagamento := none,
    status := Status.Pendente, numero_parcelas := 2 }

/-- A Pending installment of exLoanC6 (valor 50). -/
def exParcelaC6 : Installment :=
  { id := 31, numero_parcela := 1, valor := 50, data_vencimento := 3,
    status := Status.Pendente, valor_pago := 0, data_pagamento := none,
    forma_pagamento := none, multa_manual := none, client_id := none }

/-- Ledger state around exLoanC6. -/
def exStateC6 : LoanState :=
  { loan := exLoanC6, parcelas := [exParcelaC6], pagamentos := [],
    historico := [] }

/-- Concrete loan for C9. -/
def exLoanC9 : Loan :=
  { id := 9, cliente_id := 8, client_id := none, descricao := "c9",
    valor_original := 20, valor_pago := 10, desconto := 0, valor_total := 26,
    taxa_juros := 30, data_vencimento := 8, data_pagamento := none,
    status := Status.Pendente, numero_parcelas := 2 }

/-- A settled (Pago) installment of exLoanC9, due on day 8. -/
def exParcelaC9 : Installment :=
  { id := 5, numero_parcela := 2, valor := 10, data_vencimento := 8,
    status := Status.Pago, valor_pago := 10, data_pagamento := some 8,
    forma_pagamento := some "Dinheiro", multa_manual := none,
    client_id := none }

/-- Ledger state around exLoanC9. -/
def exStateC9 : LoanState :=
  { loan := exLoanC9, parcelas := [exParcelaC9], pagamentos := [],
    historico := [] }

/-- Concrete loan for C10: the tenant reference (client_id 1) differs from the
borrowing customer (cliente_id 9), so the two columns are distinguishable. -/
def exLoanC10 : Loan :=
  { id := 10, cliente_id := 9, client_id := some 1, descricao := "c10",
    valor_original := 100, valor_pago := 0, desconto := 0, valor_total := 130,
    taxa_juros := 30, data_vencimento := 4, data_pagamento := none,
    status := Status.Pendente, numero_parcelas := 2 }

/-- A Pending installment of exLoanC10. -/
def exParcelaC10 : Installment :=
  { id := 41, numero_parcela := 1, valor := 65, data_vencimento := 4,
    status := Status.Pendente, valor_pago := 0, data_pagamento := none,
    forma_pagamento := none, multa_manual := none, client_id := none }

/-- Ledger state around exLoanC10. -/
def exStateC10 : LoanState :=
  { loan := exLoanC10, parcelas := [exParcelaC10], pagamentos := [],
    historico := [] }

theorem pularDomingos_not_domingo (d : Nat) : pularDomingos d % 7 ≠ 6 := by
  unfold pularDomingos
  split <;> omega

theorem pularDomingos_of_not_domingo (d : Nat) (h : d % 7 ≠ 6) :
    pularDomingos d = d := by
  unfold pularDomingos
  simp [h]

theorem gerarParcelas_length (v : ℚ) (n i d : Nat) :
    (gerarParcelas v n i d).length = n := by
  induction n generalizing i d with
  | zero => rfl
  | succ m ih => simp [gerarParcelas, ih]

theorem gerarParcelas_numeros (v : ℚ) (n i d : Nat) :
    (gerarParcelas v n i d).map Installment.numero_parcela =
      List.range' (i + 1) n := by
  induction n generalizing i d with
  | zero => rfl
  | succ m ih => simp [gerarParcelas, List.range', ih]

theorem gerarParcelas_fields (v : ℚ) (n i d : Nat) :
    ∀ p ∈ gerarParcelas v n i d,
      p.status = Status.Pendente ∧ p.valor_pago = 0 ∧ p.valor = v ∧
        p.data_vencimento % 7 ≠ 6 := by
  induction n generalizing i d with
  | zero => intro p hp; cases hp
  | succ m ih =>
    intro p hp
    simp only [gerarParcelas, List.mem_cons] at hp
    rcases hp with rfl | hp
    · exact ⟨rfl, rfl, rfl, pularDomingos_not_domingo d⟩
    · exact ih (i + 1) (pularDomingos d + 1) p hp

theorem gerarParcelas_sum (v : ℚ) (n i d : Nat) :
    ((gerarParcelas v n i d).map Installment.valor).sum = n * v := by
  induction n generalizing i d with
  | zero => simp [gerarParcelas]
  | succ m ih =>
    simp only [gerarParcelas, List.map_cons, List.sum_cons, ih]
    push_cast
    ring

theorem gerarParcelas_head_due (v : ℚ) (n i d : Nat) (h : n ≠ 0) :
    (gerarParcelas v n i d).head?.map Installment.data_vencimento =
      some (pularDomingos d) := by
  cases n with
  | zero => exact absurd rfl h
  | succ m => rfl

theorem gerarParcelas_chain (v : ℚ) (n i d : Nat) :
    List.Chain'
      (fun a b => b.data_vencimento = pularDomingos (a.data_vencimento + 1))
      (gerarParcelas v n i d) := by
  induction n generalizing i d with
  | zero => exact List.chain'_nil
  | succ m ih =>
    cases m with
    | zero => simp [gerarParcelas]
    | succ k =>
      exact List.Chain'.cons rfl (ih (i + 1) (pularDomingos d + 1))

theorem find_map_update (l : List Installment) (pid : Nat)
    (upd : Installment → Installment) (hid : ∀ q, (upd q).id = q.id) :
    (l.map (fun q => if q.id == pid then upd q else q)).find?
        (fun q => q.id == pid) =
      (l.find? (fun q => q.id == pid)).map upd := by
  induction l with
  | nil => rfl
  | cons h t ih =>
    by_cases hh : h.id = pid
    · have hb : (h.id == pid) = true := by simpa using hh
      have hb2 : ((upd h).id == pid) = true := by rw [hid]; exact hb
      have e1 :
          ((h :: t).map (fun q => if q.id == pid then upd q else q)).find?
              (fun q => q.id == pid) = some (upd h) := by
        rw [List.map_cons, if_pos hb]
        exact List.find?_cons_of_pos _ hb2
      have e2 : (h :: t).find? (fun q => q.id == pid) = some h :=
        List.find?_cons_of_pos _ hb
      rw [e1, e2]
      rfl
    · have hb' : ¬((h.id == pid) = true) := by simpa using hh
      have e1 :
          ((h :: t).map (fun q => if q.id == pid then upd q else q)).find?
              (fun q => q.id == pid) =
            (t.map (fun q => if q.id == pid then upd q else q)).find?
              (fun q => q.id == pid) := by
        rw [List.map_cons, if_neg hb']
        exact List.find?_cons_of_neg _ hb'
      have e2 : (h :: t).find? (fun q => q.id == pid) =
          t.find? (fun q => q.id == pid) :=
        List.find?_cons_of_neg _ hb'
      rw [e1, e2, ih]

theorem map_update_proj {β : Type} (l : List Installment) (pid : Nat)
    (upd : Installment → Installment) (proj : Installment → β)
    (hproj : ∀ q, proj (upd q) = proj q) :
    (l.map (fun q => if q.id == pid then upd q else q)).map proj =
      l.map proj := by
  rw [List.map_map]
  refine List.map_congr_left ?_
  intro q _
  by_cases h : q.id = pid
  · have hb : (q.id == pid) = true := by simpa using h
    simp [Function.comp, hb, hproj]
  · have hb : (q.id == pid) = false := by simpa using h
    simp [Function.comp, hb]

theorem mem_map_update_of_ne (l : List Installment) (pid : Nat)
    (upd : Installment → Installment) (q : Installment) (hq : q ∈ l)
    (hne : q.id ≠ pid) :
    q ∈ l.map (fun r => if r.id == pid then upd r else r) := by
  refine List.mem_map.mpr ⟨q, hq, ?_⟩
  have hb : (q.id == pid) = false := by simpa using hne
  simp [hb]

theorem pend_sum_eq_spec (ps : List Installment)
    (hm : ∀ p ∈ ps, 0 ≤ multaOr0 p) :
    ((ps.filter (fun p => p.status == Status.Pendente)).map
      (fun p => p.valor + multaOr0 p)).sum = specOutstanding ps := by
  unfold specOutstanding
  refine congrArg List.sum (List.map_congr_left ?_)
  intro p hp
  have hp' : p ∈ ps := (List.mem_filter.mp hp).1
  have h0 := hm p hp'
  unfold multaOr0 at h0 ⊢
  rw [max_eq_left h0]

theorem kpis_eq_index (db : List (Loan × List Installment)) :
    saldo_devedor_total_kpis db = saldo_devedor_total_index db := by
  unfold saldo_devedor_total_kpis saldo_devedor_total_index
  refine congrArg List.sum (List.map_congr_left ?_)
  intro cob _
  cases hc : (cob.1.status == Status.Pendente) <;> simp [hc]

theorem cliente_eq_index (db : List (Loan × List Installment)) :
    saldo_devedor_cliente db = saldo_devedor_total_index db := by
  unfold saldo_devedor_cliente saldo_devedor_total_index
  induction db with
  | nil => rfl
  | cons c t ih =>
    rw [List.filter_cons, List.map_cons, List.sum_cons]
    by_cases hc : (c.1.status == Status.Pendente) = true
    · rw [if_pos hc, List.map_cons, List.sum_cons, if_pos hc, ih]
    · rw [if_neg hc, if_neg hc, ih, zero_add]

/-- C5: the accrual computation with tolerance_days = 3 on an unpaid charge
with a due date: days_late at most 3 yields zero penalty, zero interest and
total_due = original - discount; days_late > 3 yields penalty =
original*(penalty_rate/100) and interest =
original*(monthly_rate/100)*(days_late/30) with days_late/30 real-valued,
each rounded to 2 decimals, and total_due =
original + penalty + interest - discount rounded to 2 decimals. -/
theorem C5_accrual_formula (status : Status) (data_venc hoje : ℤ)
    (valor_original desconto taxa_multa taxa_juros_mensal : ℚ)
    (hstatus : status ≠ Status.Pago) :
    (hoje - data_venc ≤ 3 →
      calcular_valor_atualizado status (some data_venc) hoje valor_original
          desconto 3 taxa_multa taxa_juros_mensal =
        ⟨0, 0, valor_original - desconto, 0⟩) ∧
    (3 < hoje - data_venc →
      calcular_valor_atualizado status (some data_venc) hoje valor_original
          desconto 3 taxa_multa taxa_juros_mensal =
        ⟨round2 (valor_original * (taxa_multa / 100)),
         round2 (valor_original * (taxa_juros_mensal / 100) *
           (((hoje - data_venc : ℤ) : ℚ) / 30)),
         round2 (valor_original + valor_original * (taxa_multa / 100) +
           valor_original * (taxa_juros_mensal / 100) *
             (((hoje - data_venc : ℤ) : ℚ) / 30) - desconto),
         hoje - data_venc⟩) := by
  simp only [calcular_valor_atualizado]
  constructor
  · intro h
    rw [if_neg hstatus]
    by_cases hgt : data_venc < hoje
    · rw [if_pos hgt, if_neg (by omega : ¬ (hoje - data_venc > 3))]
    · rw [if_neg hgt]
  · intro h
    have hgt : data_venc < hoje := by omega
    rw [if_neg hstatus, if_pos hgt, if_pos (by omega : hoje - data_venc > 3)]

/-- C5 witness: the claim's concrete instance -- principal 1000, penalty rate
10, monthly rate 2, 33 days late: penalty 100.00, interest 22.00, total_due
1122.00. -/
theorem C5_accrual_formula_witness :
    (3 : ℤ) < 33 - 0 ∧
    calcular_valor_atualizado Status.Pendente (some 0) 33 1000 0 3 10 2 =
      ⟨round2 (1000 * (10 / 100)),
       round2 (1000 * (2 / 100) * (((33 - 0 : ℤ) : ℚ) / 30)),
       round2 (1000 + 1000 * (10 / 100) +
         1000 * (2 / 100) * (((33 - 0 : ℤ) : ℚ) / 30) - 0), 33 - 0⟩ ∧
    calcular_valor_atualizado Status.Pendente (some 0) 33 1000 0 3 10 2 =
      ⟨100, 22, 1122, 33⟩ := by
  refine ⟨by decide,
    (C5_accrual_formula Status.Pendente 0 33 1000 0 10 2
      (by decide)).2 (by decide), ?_⟩
  simp only [calcular_valor_atualizado, round2]
  norm_num [round_eq]
  decide

/-- C3: the claim asserts tenant noninterference, but the embedded queries
read across tenants: the customer count returns both tenants' rows (2, where
tenant 1 owns only 1), and the accrual configuration lookup returns tenant
2's dias_tolerancia (10) where tenant 1's own rows give 3 -- so results
computed for tenant A do change with tenant B's data. -/
theorem C3_cross_tenant_reads :
    total_clientes exClientesC3 = 2 ∧
    total_clientes (tenantCustomers exClientesC3 1) = 1 ∧
    configLookup exConfigC3 "dias_tolerancia" 3 = 10 ∧
    configLookup (tenantConfig exConfigC3 1) "dias_tolerancia" 3 = 3 := by
  decide

/-- C1 (counterexample): on a Pending loan with valor_pago 50 and a single
Pending installment of 100, the customer-detail view computes 50 while the
spec formula (and the dashboard listing) computes 100 -- so not every read
path uses the same formula. -/
theorem C1_counterexample :
    saldo_devedor_calculado exCobC1 ≠ specOutstanding exCobC1.2 ∧
    saldo_cob_index exCobC1 = specOutstanding exCobC1.2 := by
  constructor
  · simp only [saldo_devedor_calculado, specOutstanding, exCobC1, exLoanC1,
      exParcelaC1, multaOr0]
    norm_num
  · simp only [saldo_cob_index, specOutstanding, exCobC1, exParcelaC1,
      multaOr0]
    norm_num

/-- C1 (amended): the dashboard total, the reporting-KPI total, the
per-customer listing and the dashboard per-loan listing all compute the
spec's derived balance (sum over Pending installments of amount +
max(manual_penalty, 0), given non-negative stored penalties); the
customer-detail view alone substitutes an alternate formula, subtracting the
loan's aggregate valor_pago from that sum. -/
theorem C1_amended_read_paths (db : List (Loan × List Installment))
    (hm : ∀ cob ∈ db, ∀ p ∈ cob.2, 0 ≤ multaOr0 p) :
    saldo_devedor_total_index db =
        (db.map (fun cob => if cob.1.status == Status.Pendente then
          specOutstanding cob.2 else 0)).sum ∧
    saldo_devedor_total_kpis db = saldo_devedor_total_index db ∧
    saldo_devedor_cliente db = saldo_devedor_total_index db ∧
    (∀ cob ∈ db, saldo_cob_index cob = specOutstanding cob.2) ∧
    (∀ cob ∈ db, saldo_devedor_calculado cob =
      specOutstanding cob.2 - cob.1.valor_pago) := by
  refine ⟨?_, kpis_eq_index db, cliente_eq_index db, ?_, ?_⟩
  · unfold saldo_devedor_total_index
    refine congrArg List.sum (List.map_congr_left ?_)
    intro cob hcob
    by_cases hc : (cob.1.status == Status.Pendente) = true
    · rw [if_pos hc, if_pos hc, pend_sum_eq_spec cob.2 (hm cob hcob)]
    · rw [if_neg hc, if_neg hc]
  · intro cob hcob
    unfold saldo_cob_index
    exact pend_sum_eq_spec cob.2 (hm cob hcob)
  · intro cob hcob
    unfold saldo_devedor_calculado
    rw [pend_sum_eq_spec cob.2 (hm cob hcob)]

/-- C1 witness: the amended read-path equalities instantiated on the
one-loan portfolio exDbC1. -/
theorem C1_amended_read_paths_witness :
    (∀ cob ∈ exDbC1, ∀ p ∈ cob.2, 0 ≤ multaOr0 p) ∧
    (saldo_devedor_total_index exDbC1 =
        (exDbC1.map (fun cob => if cob.1.status == Status.Pendente then
          specOutstanding cob.2 else 0)).sum ∧
    saldo_devedor_total_kpis exDbC1 = saldo_devedor_total_index exDbC1 ∧
    saldo_devedor_cliente exDbC1 = saldo_devedor_total_index exDbC1 ∧
    (∀ cob ∈ exDbC1, saldo_cob_index cob = specOutstanding cob.2) ∧
    (∀ cob ∈ exDbC1, saldo_devedor_calculado cob =
      specOutstanding cob.2 - cob.1.valor_pago)) :=
  ⟨by decide, C1_amended_read_paths exDbC1 (by decide)⟩

/-- C2 (counterexample): a generic payment of 100 on a Pending loan with
valor_total 100 makes valor_pago reach valor_total while the status stays
Pendente -- the biconditional (status = Paid iff paid_amount >= total_due)
does not hold after registrar_pagamento. -/
theorem C2_counterexample :
    ¬(((registrar_pagamento exStateC2 100 "" none).1.loan.status =
        Status.Pago) ↔
      (registrar_pagamento exStateC2 100 "" none).1.loan.valor_total ≤
        (registrar_pagamento exStateC2 100 "" none).1.loan.valor_pago) := by
  have h100 : ¬ (100 : ℚ) ≤ 0 := by norm_num
  simp only [registrar_pagamento, if_neg h100]
  simp [exStateC2, exLoanC2]

/-- C2 (amended): paid_amount >= total_due is necessary but not sufficient
for status = Paid.  registrar_pagamento increments valor_pago and changes no
status; marcar_parcela_paga on a Pending installment leaves the loan with
status = Pago exactly when the incremented valor_pago reaches valor_total
(given the standing invariant Pago -> valor_total <= valor_pago and a
non-negative installment amount); neither operation moves a Pago loan back to
Pendente, and valor_pago never decreases. -/
theorem C2_amended_closure (s : LoanState) (valor : ℚ) (obs : String)
    (uid : Option Nat) (pid hoje : Nat) (parcela : Installment)
    (hv : 0 < valor)
    (hinv : s.loan.status = Status.Pago →
      s.loan.valor_total ≤ s.loan.valor_pago)
    (hfind : s.parcelas.find? (fun p => p.id == pid) = some parcela)
    (hpend : parcela.status = Status.Pendente)
    (hval : 0 ≤ parcela.valor) :
    (registrar_pagamento s valor obs uid).1.loan.valor_pago =
        s.loan.valor_pago + valor ∧
    (registrar_pagamento s valor obs uid).1.loan.status = s.loan.status ∧
    (registrar_pagamento s valor obs uid).1.parcelas = s.parcelas ∧
    ((marcar_parcela_paga s pid hoje uid).1.loan.status = Status.Pago ↔
      (marcar_parcela_paga s pid hoje uid).1.loan.valor_total ≤
        (marcar_parcela_paga s pid hoje uid).1.loan.valor_pago) ∧
    (s.loan.status = Status.Pago →
      (marcar_parcela_paga s pid hoje uid).1.loan.status = Status.Pago) ∧
    s.loan.valor_pago ≤ (marcar_parcela_paga s pid hoje uid).1.loan.valor_pago := by
  have hnle : ¬ valor ≤ 0 := not_le.mpr hv
  have hnp : ¬ parcela.status = Status.Pago := by simp [hpend]
  refine ⟨?_, ?_, ?_, ?_, ?_, ?_⟩
  · simp [registrar_pagamento, if_neg hnle]
  · simp [registrar_pagamento, if_neg hnle]
  · simp [registrar_pagamento, if_neg hnle]
  · by_cases hc : s.loan.valor_total ≤ s.loan.valor_pago + parcela.valor
    · simp [marcar_parcela_paga, hfind, if_neg hnp, if_pos hc, hc]
    · simp only [marcar_parcela_paga, hfind, if_neg hnp, if_neg hc]
      constructor
      · intro hp
        exact absurd (le_trans (hinv hp) (le_add_of_nonneg_right hval)) hc
      · intro hle
        exact absurd hle hc
  · intro hp
    by_cases hc : s.loan.valor_total ≤ s.loan.valor_pago + parcela.valor
    · simp [marcar_parcela_paga, hfind, if_neg hnp, if_pos hc]
    · exact absurd (le_trans (hinv hp) (le_add_of_nonneg_right hval)) hc
  · by_cases hc : s.loan.valor_total ≤ s.loan.valor_pago + parcela.valor
    · simp only [marcar_parcela_paga, hfind, if_neg hnp, if_pos hc]
      exact le_add_of_nonneg_right hval
    · simp only [marcar_parcela_paga, hfind, if_neg hnp, if_neg hc]
      exact le_add_of_nonneg_right hval

/-- C2 witness: the amended closure facts instantiated on exStateC2 with a
generic payment of 40 and settlement of installment 21. -/
theorem C2_amended_closure_witness :
    ((0 : ℚ) < 40 ∧
     (exStateC2.loan.status = Status.Pago →
       exStateC2.loan.valor_total ≤ exStateC2.loan.valor_pago) ∧
     exStateC2.parcelas.find? (fun p => p.id == 21) = some exParcelaC2 ∧
     exParcelaC2.status = Status.Pendente ∧ (0 : ℚ) ≤ exParcelaC2.valor) ∧
    ((registrar_pagamento exStateC2 40 "" none).1.loan.valor_pago =
        exStateC2.loan.valor_pago + 40 ∧
     (registrar_pagamento exStateC2 40 "" none).1.loan.status =
        exStateC2.loan.status ∧
     (registrar_pagamento exStateC2 40 "" none).1.parcelas =
        exStateC2.parcelas ∧
     ((marcar_parcela_paga exStateC2 21 5 none).1.loan.status = Status.Pago ↔
       (marcar_parcela_paga exStateC2 21 5 none).1.loan.valor_total ≤
         (marcar_parcela_paga exStateC2 21 5 none).1.loan.valor_pago) ∧
     (exStateC2.loan.status = Status.Pago →
       (marcar_parcela_paga exStateC2 21 5 none).1.loan.status =
         Status.Pago) ∧
     exStateC2.loan.valor_pago ≤
       (marcar_parcela_paga exStateC2 21 5 none).1.loan.valor_pago) :=
  ⟨⟨by decide, by decide, by decide, by decide, by decide⟩,
   C2_amended_closure exStateC2 40 "" none 21 5 exParcelaC2 (by decide)
     (by decide) (by decide) (by decide) (by decide)⟩

/-- C6: marcar_parcela_paga on an already-Pago installment returns the
already-settled notice with the state fully unchanged; on a Pendente
installment it returns ok, settles exactly that installment (status Pago,
valor_pago = its valor, data_pagamento = today, forma Dinheiro), leaves every
other installment in place, increments the loan's valor_pago by exactly the
installment's valor, appends exactly one PaymentHistory row whose note names
the installment's numero_parcela, and creates no Payment row. -/
theorem C6_settle_installment (s : LoanState) (pid hoje : Nat)
    (uid : Option Nat) (parcela : Installment)
    (hfind : s.parcelas.find? (fun p => p.id == pid) = some parcela) :
    (parcela.status = Status.Pago →
      marcar_parcela_paga s pid hoje uid = (s, OpResultado.jaPaga)) ∧
    (parcela.status = Status.Pendente →
      (marcar_parcela_paga s pid hoje uid).2 = OpResultado.ok ∧
      (marcar_parcela_paga s pid hoje uid).1.parcelas.find?
          (fun p => p.id == pid) =
        some { parcela with
               status := Status.Pago, valor_pago := parcela.valor,
               forma_pagamento := some "Dinheiro",
               data_pagamento := some hoje } ∧
      (∀ q ∈ s.parcelas, q.id ≠ pid →
        q ∈ (marcar_parcela_paga s pid hoje uid).1.parcelas) ∧
      (marcar_parcela_paga s pid hoje uid).1.loan.valor_pago =
        s.loan.valor_pago + parcela.valor ∧
      (marcar_parcela_paga s pid hoje uid).1.historico =
        s.historico ++
          [{ cobranca_id := s.loan.id, cliente_id := s.loan.cliente_id,
             valor_pago := parcela.valor, forma_pagamento := "Dinheiro",
             observacoes := "Pagamento da parcela " ++
               toString parcela.numero_parcela,
             usuario_id := uid, client_id := s.loan.cliente_id }] ∧
      (marcar_parcela_paga s pid hoje uid).1.pagamentos = s.pagamentos) := by
  constructor
  · intro hpago
    simp only [marcar_parcela_paga, hfind, if_pos hpago]
  · intro hpend
    have hnp : ¬ parcela.status = Status.Pago := by simp [hpend]
    have hupd :
        (s.parcelas.map (fun p => if p.id == pid then
            { p with
              status := Status.Pago, valor_pago := p.valor,
              forma_pagamento := some "Dinheiro",
              data_pagamento := some hoje }
          else p)).find? (fun p => p.id == pid) =
          (s.parcelas.find? (fun p => p.id == pid)).map
            (fun p =>
              { p with
                status := Status.Pago, valor_pago := p.valor,
                forma_pagamento := some "Dinheiro",
                data_pagamento := some hoje }) :=
      find_map_update s.parcelas pid _ (fun q => rfl)
    by_cases hc : s.loan.valor_total ≤ s.loan.valor_pago + parcela.valor
    · simp only [marcar_parcela_paga, hfind, if_neg hnp, if_pos hc]
      refine ⟨trivial, ?_, ?_, trivial, trivial, trivial⟩
      · rw [hupd, hfind]
        rfl
      · intro q hq hne
        exact mem_map_update_of_ne s.parcelas pid _ q hq hne
    · simp only [marcar_parcela_paga, hfind, if_neg hnp, if_neg hc]
      refine ⟨trivial, ?_, ?_, trivial, trivial, trivial⟩
      · rw [hupd, hfind]
        rfl
      · intro q hq hne
        exact mem_map_update_of_ne s.parcelas pid _ q hq hne

/-- C6 witness: settlement of the Pending installment 31 of exStateC6 returns
ok and increments the loan's valor_pago by the installment's valor. -/
theorem C6_settle_installment_witness :
    (exStateC6.parcelas.find? (fun p => p.id == 31) = some exParcelaC6) ∧
    exParcelaC6.status = Status.Pendente ∧
    (marcar_parcela_paga exStateC6 31 5 none).2 = OpResultado.ok ∧
    (marcar_parcela_paga exStateC6 31 5 none).1.loan.valor_pago =
      exStateC6.loan.valor_pago + exParcelaC6.valor := by
  refine ⟨by decide, by decide, ?_, ?_⟩
  · exact ((C6_settle_installment exStateC6 31 5 none exParcelaC6
      (by decide)).2 (by decide)).1
  · exact ((C6_settle_installment exStateC6 31 5 none exParcelaC6
      (by decide)).2 (by decide)).2.2.2.1

/-- C9 (counterexample): installment 5 of exStateC9 is Pago with due date 8,
yet editar_data_parcela moves its due date to 9 and reports success -- a Paid
installment's due date is not immutable. -/
theorem C9_counterexample :
    exParcelaC9.status = Status.Pago ∧
    exParcelaC9.data_vencimento = 8 ∧
    (editar_data_parcela exStateC9 5 9).2 = OpResultado.ok ∧
    ((editar_data_parcela exStateC9 5 9).1.parcelas.find?
        (fun p => p.id == 5)).map Installment.data_vencimento = some 9 := by
  decide

/-- C9 (amended): no modelled operation changes a settled installment's
amount (the edit-date route and the payment routes preserve every
installment's valor), but editar_data_parcela updates the due date of the
targeted installment regardless of its status -- its only validation is the
Sunday rule. -/
theorem C9_amended_immutability (s : LoanState) (pid nova : Nat)
    (parcela : Installment)
    (hfind : s.parcelas.find? (fun p => p.id == pid) = some parcela)
    (hnd : ¬ nova % 7 = 6) :
    (editar_data_parcela s pid nova).2 = OpResultado.ok ∧
    (editar_data_parcela s pid nova).1.parcelas.find?
        (fun p => p.id == pid) =
      some { parcela with data_vencimento := nova } ∧
    (editar_data_parcela s pid nova).1.parcelas.map Installment.valor =
      s.parcelas.map Installment.valor ∧
    (editar_data_parcela s pid nova).1.parcelas.map Installment.status =
      s.parcelas.map Installment.status ∧
    (∀ hoje uid,
      (marcar_parcela_paga s pid hoje uid).1.parcelas.map Installment.valor =
        s.parcelas.map Installment.valor ∧
      (marcar_parcela_paga s pid hoje uid).1.parcelas.map
          Installment.data_vencimento =
        s.parcelas.map Installment.data_vencimento) ∧
    (∀ v o u, (registrar_pagamento s v o u).1.parcelas = s.parcelas) := by
  refine ⟨?_, ?_, ?_, ?_, ?_, ?_⟩
  · simp [editar_data_parcela, hfind, if_neg hnd]
  · simp only [editar_data_parcela, hfind, if_neg hnd]
    rw [find_map_update s.parcelas pid
      (fun p => { p with data_vencimento := nova }) (fun q => rfl), hfind]
    rfl
  · simp only [editar_data_parcela, hfind, if_neg hnd]
    exact map_update_proj s.parcelas pid _ Installment.valor (fun q => rfl)
  · simp only [editar_data_parcela, hfind, if_neg hnd]
    exact map_update_proj s.parcelas pid _ Installment.status (fun q => rfl)
  · intro hoje uid
    cases hst : parcela.status with
    | Pago =>
      simp only [marcar_parcela_paga, hfind, if_pos hst]
      exact ⟨trivial, trivial⟩
    | Pendente =>
      have hnp : ¬ parcela.status = Status.Pago := by simp [hst]
      by_cases hc : s.loan.valor_total ≤ s.loan.valor_pago + parcela.valor
      · simp only [marcar_parcela_paga, hfind, if_neg hnp, if_pos hc]
        exact ⟨map_update_proj s.parcelas pid _ Installment.valor
            (fun q => rfl),
          map_update_proj s.parcelas pid _ Installment.data_vencimento
            (fun q => rfl)⟩
      · simp only [marcar_parcela_paga, hfind, if_neg hnp, if_neg hc]
        exact ⟨map_update_proj s.parcelas pid _ Installment.valor
            (fun q => rfl),
          map_update_proj s.parcelas pid _ Installment.data_vencimento
            (fun q => rfl)⟩
  · intro v o u
    by_cases hv : v ≤ 0
    · simp [registrar_pagamento, if_pos hv]
    · simp [registrar_pagamento, if_neg hv]

/-- C9 witness: the amended statement instantiated on exStateC9 (a Pago
installment), moving its due date to day 9. -/
theorem C9_amended_immutability_witness :
    (exStateC9.parcelas.find? (fun p => p.id == 5) = some exParcelaC9) ∧
    ¬ (9 : Nat) % 7 = 6 ∧
    (editar_data_parcela exStateC9 5 9).2 = OpResultado.ok ∧
    (editar_data_parcela exStateC9 5 9).1.parcelas.map Installment.valor =
      exStateC9.parcelas.map Installment.valor := by
  refine ⟨by decide, by decide, ?_, ?_⟩
  · exact (C9_amended_immutability exStateC9 5 9 exParcelaC9 (by decide)
      (by decide)).1
  · exact (C9_amended_immutability exStateC9 5 9 exParcelaC9 (by decide)
      (by decide)).2.2.1

/-- C10: both audit-row writers store the borrowing customer's id
(loan.cliente_id) in the tenant column client_id of the rows they create:
registrar_pagamento's Payment and PaymentHistory rows, and
marcar_parcela_paga's PaymentHistory row. -/
theorem C10_audit_rows_tenant_field (s : LoanState) (valor : ℚ)
    (obs : String) (uid : Option Nat) (pid hoje : Nat)
    (parcela : Installment) (hv : 0 < valor)
    (hfind : s.parcelas.find? (fun p => p.id == pid) = some parcela)
    (hpend : parcela.status = Status.Pendente) :
    (∃ pg : Payment, (registrar_pagamento s valor obs uid).1.pagamentos =
      s.pagamentos ++ [pg] ∧ pg.client_id = s.loan.cliente_id) ∧
    (∃ h1 : PaymentHistory,
      (registrar_pagamento s valor obs uid).1.historico =
        s.historico ++ [h1] ∧ h1.client_id = s.loan.cliente_id) ∧
    (∃ h2 : PaymentHistory,
      (marcar_parcela_paga s pid hoje uid).1.historico =
        s.historico ++ [h2] ∧ h2.client_id = s.loan.cliente_id) := by
  have hnle : ¬ valor ≤ 0 := not_le.mpr hv
  have hnp : ¬ parcela.status = Status.Pago := by simp [hpend]
  refine ⟨?_, ?_, ?_⟩
  · simp only [registrar_pagamento, if_neg hnle]
    exact ⟨_, rfl, rfl⟩
  · simp only [registrar_pagamento, if_neg hnle]
    exact ⟨_, rfl, rfl⟩
  · by_cases hc : s.loan.valor_total ≤ s.loan.valor_pago + parcela.valor
    · simp only [marcar_parcela_paga, hfind, if_neg hnp, if_pos hc]
      exact ⟨_, rfl, rfl⟩
    · simp only [marcar_parcela_paga, hfind, if_neg hnp, if_neg hc]
      exact ⟨_, rfl, rfl⟩

/-- C10 witness: on exStateC10, whose loan has cliente_id 9 and tenant
client_id 1, the created audit rows carry client_id 9. -/
theorem C10_audit_rows_tenant_field_witness :
    ((0 : ℚ) < 25 ∧
     exStateC10.parcelas.find? (fun p => p.id == 41) = some exParcelaC10 ∧
     exParcelaC10.status = Status.Pendente) ∧
    ((∃ pg : Payment, (registrar_pagamento exStateC10 25 "" none).1.pagamentos =
       exStateC10.pagamentos ++ [pg] ∧ pg.client_id =
         exStateC10.loan.cliente_id) ∧
     (∃ h1 : PaymentHistory,
       (registrar_pagamento exStateC10 25 "" none).1.historico =
         exStateC10.historico ++ [h1] ∧ h1.client_id =
           exStateC10.loan.cliente_id) ∧
     (∃ h2 : PaymentHistory,
       (marcar_parcela_paga exStateC10 41 6 none).1.historico =
         exStateC10.historico ++ [h2] ∧ h2.client_id =
           exStateC10.loan.cliente_id)) :=
  ⟨⟨by decide, by decide, by decide⟩,
   C10_audit_rows_tenant_field exStateC10 25 "" none 41 6 exParcelaC10
     (by decide) (by decide) (by decide)⟩

theorem adicionar_cobranca_domingo (cid : Nat) (descr : String)
    (princ taxa : ℚ) (dt : Nat) (hdt : dt % 7 = 6) :
    adicionar_cobranca cid descr princ taxa dt =
      Except.error CobrancaErro.dataDomingo := by
  simp only [adicionar_cobranca, if_pos hdt]

theorem adicionar_cobranca_30 (cid : Nat) (descr : String) (princ : ℚ)
    (dt : Nat) (hdt : ¬ dt % 7 = 6) :
    adicionar_cobranca cid descr princ 30 dt =
      Except.ok
        ({ id := 0, cliente_id := cid, client_id := none, descricao := descr,
           valor_original := princ, valor_pago := 0, desconto := 0,
           valor_total := princ * (1 + 30 / 100), taxa_juros := 30,
           data_vencimento := dt, data_pagamento := none,
           status := Status.Pendente, numero_parcelas := 10 },
         gerarParcelas (princ * (1 + 30 / 100) / ((10 : Nat) : ℚ))
           10 0 dt) := by
  simp only [adicionar_cobranca, if_neg hdt]
  norm_num

theorem adicionar_cobranca_60 (cid : Nat) (descr : String) (princ : ℚ)
    (dt : Nat) (hdt : ¬ dt % 7 = 6) :
    adicionar_cobranca cid descr princ 60 dt =
      Except.ok
        ({ id := 0, cliente_id := cid, client_id := none, descricao := descr,
           valor_original := princ, valor_pago := 0, desconto := 0,
           valor_total := princ * (1 + 60 / 100), taxa_juros := 60,
           data_vencimento := dt, data_pagamento := none,
           status := Status.Pendente, numero_parcelas := 15 },
         gerarParcelas (princ * (1 + 60 / 100) / ((15 : Nat) : ℚ))
           15 0 dt) := by
  simp only [adicionar_cobranca, if_neg hdt]
  norm_num

theorem adicionar_cobranca_invalida (cid : Nat) (descr : String)
    (princ taxa : ℚ) (dt : Nat) (hdt : ¬ dt % 7 = 6) (h30 : taxa ≠ 30)
    (h60 : taxa ≠ 60) :
    adicionar_cobranca cid descr princ taxa dt =
      Except.error CobrancaErro.taxaInvalida := by
  simp only [adicionar_cobranca, if_neg hdt, if_neg h30, if_neg h60]

/-- C4 (counterexample): on the edit path, rate tier 45 with a requested
installment count of 7 is not rejected: the regeneration succeeds and stores
taxa_juros 45 with 7 installments. -/
theorem C4_counterexample :
    (editar_cobranca exStateC4 100 1 (some 45) (some 7)).2 =
      OpResultado.ok ∧
    (editar_cobranca exStateC4 100 1 (some 45) (some 7)).1.loan.numero_parcelas
      = 7 ∧
    (editar_cobranca exStateC4 100 1 (some 45) (some 7)).1.loan.taxa_juros
      = 45 := by
  decide

/-- C4 (amended): the creation path maps tier 30 to 10 installments, tier 60
to 15, and rejects any other tier with a validation error before any record
is created; the edit path maps 30 and 60 the same way but accepts any other
tier, silently falling back to the form-provided installment count. -/
theorem C4_amended_rate_tiers (cid : Nat) (descr : String)
    (princ taxa : ℚ) (dt : Nat) (s : LoanState) (novoValor : ℚ)
    (novaData numForm : Nat)
    (hdt : ¬ dt % 7 = 6) (hnv : 0 < novoValor) (hnd : ¬ novaData % 7 = 6) :
    (taxa = 30 → ∃ cob ps, adicionar_cobranca cid descr princ taxa dt =
      Except.ok (cob, ps) ∧ cob.numero_parcelas = 10) ∧
    (taxa = 60 → ∃ cob ps, adicionar_cobranca cid descr princ taxa dt =
      Except.ok (cob, ps) ∧ cob.numero_parcelas = 15) ∧
    (taxa ≠ 30 → taxa ≠ 60 → adicionar_cobranca cid descr princ taxa dt =
      Except.error CobrancaErro.taxaInvalida) ∧
    (editar_cobranca s novoValor novaData (some 30)
      (some numForm)).1.loan.numero_parcelas = 10 ∧
    (editar_cobranca s novoValor novaData (some 60)
      (some numForm)).1.loan.numero_parcelas = 15 ∧
    (∀ t : ℚ, t ≠ 30 → t ≠ 60 →
      (editar_cobranca s novoValor novaData (some t) (some numForm)).2 =
        OpResultado.ok ∧
      (editar_cobranca s novoValor novaData (some t)
        (some numForm)).1.loan.numero_parcelas = numForm) := by
  have hnle : ¬ novoValor ≤ 0 := not_le.mpr hnv
  refine ⟨?_, ?_, ?_, ?_, ?_, ?_⟩
  · intro h30
    subst h30
    exact ⟨_, _, adicionar_cobranca_30 cid descr princ dt hdt, rfl⟩
  · intro h60
    subst h60
    exact ⟨_, _, adicionar_cobranca_60 cid descr princ dt hdt, rfl⟩
  · intro h30 h60
    exact adicionar_cobranca_invalida cid descr princ taxa dt hdt h30 h60
  · simp [editar_cobranca, if_neg hnle, if_neg hnd]
  · simp [editar_cobranca, if_neg hnle, if_neg hnd]
  · intro t h30 h60
    constructor
    · simp only [editar_cobranca, if_neg hnle, if_neg hnd]
    · simp only [editar_cobranca, if_neg hnle, if_neg hnd,
        Option.getD_some, if_neg h30, if_neg h60]

/-- C4 witness: the amended tier facts instantiated with tier 30 on the
creation path and exStateC4 on the edit path. -/
theorem C4_amended_rate_tiers_witness :
    (¬ (0 : Nat) % 7 = 6 ∧ (0 : ℚ) < 100 ∧ ¬ (1 : Nat) % 7 = 6) ∧
    ((∃ cob ps, adicionar_cobranca 1 "w" 1000 30 0 = Except.ok (cob, ps) ∧
        cob.numero_parcelas = 10) ∧
     (editar_cobranca exStateC4 100 1 (some 30)
       (some 7)).1.loan.numero_parcelas = 10 ∧
     (editar_cobranca exStateC4 100 1 (some 45) (some 7)).2 =
       OpResultado.ok) := by
  refine ⟨⟨by decide, by decide, by decide⟩, ?_, ?_, ?_⟩
  · exact (C4_amended_rate_tiers 1 "w" 1000 30 0 exStateC4 100 1 7
      (by decide) (by decide) (by decide)).1 rfl
  · exact (C4_amended_rate_tiers 1 "w" 1000 30 0 exStateC4 100 1 7
      (by decide) (by decide) (by decide)).2.2.2.1
  · exact ((C4_amended_rate_tiers 1 "w" 1000 30 0 exStateC4 100 1 7
      (by decide) (by decide) (by decide)).2.2.2.2.2 45
      (by norm_num) (by norm_num)).1

/-- C7: for a non-Sunday start date and tier 30 or 60, schedule creation
succeeds and yields exactly 10 resp. 15 installments, contiguous sequence
numbers 1..N, every installment Pendente with valor_pago 0 and amount
total_due / N, total_due = principal * (1 + tier/100), and the installment
amounts sum to exactly total_due. -/
theorem C7_generate_schedule (cid : Nat) (descr : String) (princ taxa : ℚ)
    (dt : Nat) (hdt : ¬ dt % 7 = 6) (htaxa : taxa = 30 ∨ taxa = 60) :
    ∃ cob ps, adicionar_cobranca cid descr princ taxa dt =
        Except.ok (cob, ps) ∧
      cob.valor_total = princ * (1 + taxa / 100) ∧
      (taxa = 30 → cob.numero_parcelas = 10) ∧
      (taxa = 60 → cob.numero_parcelas = 15) ∧
      ps.length = cob.numero_parcelas ∧
      ps.map Installment.numero_parcela =
        List.range' 1 cob.numero_parcelas ∧
      (∀ p ∈ ps, p.status = Status.Pendente ∧ p.valor_pago = 0 ∧
        p.valor = cob.valor_total / cob.numero_parcelas) ∧
      (ps.map Installment.valor).sum = cob.valor_total := by
  rcases htaxa with rfl | rfl
  · refine ⟨_, _, adicionar_cobranca_30 cid descr princ dt hdt, rfl,
      fun _ => rfl, fun h => absurd h (by norm_num), ?_, ?_, ?_, ?_⟩
    · exact gerarParcelas_length _ 10 0 dt
    · simpa using gerarParcelas_numeros
        (princ * (1 + 30 / 100) / ((10 : Nat) : ℚ)) 10 0 dt
    · intro p hp
      obtain ⟨h1, h2, h3, -⟩ := gerarParcelas_fields
        (princ * (1 + 30 / 100) / ((10 : Nat) : ℚ)) 10 0 dt p hp
      exact ⟨h1, h2, h3⟩
    · rw [gerarParcelas_sum]
      push_cast
      ring
  · refine ⟨_, _, adicionar_cobranca_60 cid descr princ dt hdt, rfl,
      fun h => absurd h (by norm_num), fun _ => rfl, ?_, ?_, ?_, ?_⟩
    · exact gerarParcelas_length _ 15 0 dt
    · simpa using gerarParcelas_numeros
        (princ * (1 + 60 / 100) / ((15 : Nat) : ℚ)) 15 0 dt
    · intro p hp
      obtain ⟨h1, h2, h3, -⟩ := gerarParcelas_fields
        (princ * (1 + 60 / 100) / ((15 : Nat) : ℚ)) 15 0 dt p hp
      exact ⟨h1, h2, h3⟩
    · rw [gerarParcelas_sum]
      push_cast
      ring

/-- C7 witness: the generation contract instantiated at principal 1000, tier
30, start day 0 (a Monday). -/
theorem C7_generate_schedule_witness :
    (¬ (0 : Nat) % 7 = 6 ∧ ((30 : ℚ) = 30 ∨ (30 : ℚ) = 60)) ∧
    (∃ cob ps, adicionar_cobranca 1 "w7" 1000 30 0 = Except.ok (cob, ps) ∧
      cob.valor_total = 1000 * (1 + 30 / 100) ∧
      ((30 : ℚ) = 30 → cob.numero_parcelas = 10) ∧
      ((30 : ℚ) = 60 → cob.numero_parcelas = 15) ∧
      ps.length = cob.numero_parcelas ∧
      ps.map Installment.numero_parcela =
        List.range' 1 cob.numero_parcelas ∧
      (∀ p ∈ ps, p.status = Status.Pendente ∧ p.valor_pago = 0 ∧
        p.valor = cob.valor_total / cob.numero_parcelas) ∧
      (ps.map Installment.valor).sum = cob.valor_total) :=
  ⟨⟨by decide, Or.inl rfl⟩,
   C7_generate_schedule 1 "w7" 1000 30 0 (by decide) (Or.inl rfl)⟩

/-- C8: a Sunday start date is rejected with a validation error before any
record is created; for an accepted schedule the first due date is the start
date itself, no due date is a Sunday, consecutive due dates follow
next = pularDomingos(prev + 1); and skipping a Sunday lands on the Monday
after (day + 2, weekday 0). -/
theorem C8_sunday_rule (cid : Nat) (descr : String) (princ taxa : ℚ)
    (dt : Nat) :
    (dt % 7 = 6 → adicionar_cobranca cid descr princ taxa dt =
      Except.error CobrancaErro.dataDomingo) ∧
    (∀ cob ps, adicionar_cobranca cid descr princ taxa dt =
        Except.ok (cob, ps) →
      ps.head?.map Installment.data_vencimento = some dt ∧
      (∀ p ∈ ps, p.data_vencimento % 7 ≠ 6) ∧
      List.Chain' (fun a b =>
        b.data_vencimento = pularDomingos (a.data_vencimento + 1)) ps) ∧
    (∀ d : Nat, (d + 1) % 7 = 6 →
      pularDomingos (d + 1) = d + 2 ∧ (d + 2) % 7 = 0) := by
  refine ⟨?_, ?_, ?_⟩
  · intro h
    exact adicionar_cobranca_domingo cid descr princ taxa dt h
  · intro cob ps hok
    by_cases hdt : dt % 7 = 6
    · rw [adicionar_cobranca_domingo cid descr princ taxa dt hdt] at hok
      simp at hok
    · by_cases h30 : taxa = 30
      · subst h30
        rw [adicionar_cobranca_30 cid descr princ dt hdt] at hok
        simp only [Except.ok.injEq, Prod.mk.injEq] at hok
        obtain ⟨-, hps⟩ := hok
        subst hps
        refine ⟨?_, ?_, ?_⟩
        · have hh := gerarParcelas_head_due
            (princ * (1 + 30 / 100) / ((10 : Nat) : ℚ)) 10 0 dt
            (by norm_num)
          rwa [pularDomingos_of_not_domingo dt hdt] at hh
        · intro p hp
          exact (gerarParcelas_fields _ 10 0 dt p hp).2.2.2
        · exact gerarParcelas_chain _ 10 0 dt
      · by_cases h60 : taxa = 60
        · subst h60
          rw [adicionar_cobranca_60 cid descr princ dt hdt] at hok
          simp only [Except.ok.injEq, Prod.mk.injEq] at hok
          obtain ⟨-, hps⟩ := hok
          subst hps
          refine ⟨?_, ?_, ?_⟩
          · have hh := gerarParcelas_head_due
              (princ * (1 + 60 / 100) / ((15 : Nat) : ℚ)) 15 0 dt
              (by norm_num)
            rwa [pularDomingos_of_not_domingo dt hdt] at hh
          · intro p hp
            exact (gerarParcelas_fields _ 15 0 dt p hp).2.2.2
          · exact gerarParcelas_chain _ 15 0 dt
        · rw [adicionar_cobranca_invalida cid descr princ taxa dt hdt
            h30 h60] at hok
          simp at hok
  · intro d h
    refine ⟨?_, by omega⟩
    unfold pularDomingos
    rw [if_pos h]

/-- C8 witness: day 6 is a Sunday and is rejected by schedule creation. -/
theorem C8_sunday_rule_witness :
    (6 : Nat) % 7 = 6 ∧
    adicionar_cobranca 1 "w8" 1000 30 6 =
      Except.error CobrancaErro.dataDomingo :=
  ⟨by decide, (C8_sunday_rule 1 "w8" 1000 30 6).1 (by decide)⟩
